import Mathlib

/-!
Shallow embedding of the n0-computer/net-tools repository (the `portmapper`
and `netwatch` crates), used to check the natural-language specification
against the code.  Machine integers (`u8`, `u16`, `u32`) are embedded as
`Nat`; the places where overflow could matter are noted next to the
definitions.  Fallible Rust code returning `Result` is embedded as
`Except`.  Platform constants and private submodules that are not part of
the source tree (the `pcp::protocol` and `nat_pmp::protocol` codecs, the
`netwatch::ip` helpers and the per-OS routing constants) are reconstructed
from the specification; each such definition carries a doc comment saying
so.
-/

namespace NetTools

/-- An IPv4 address as four octets, mirroring `std::net::Ipv4Addr`. -/
structure Ipv4Addr where
  o0 : Nat
  o1 : Nat
  o2 : Nat
  o3 : Nat
deriving DecidableEq, Repr

/-- Rust `Ipv4Addr::LOCALHOST`, that is `127.0.0.1`. -/
def Ipv4Addr.localhost : Ipv4Addr := ⟨127, 0, 0, 1⟩

/-- Rust `Ipv4Addr::is_loopback`: first octet 127. -/
def Ipv4Addr.is_loopback (ip : Ipv4Addr) : Bool := ip.o0 == 127

/-- Rust `Ipv4Addr::is_unspecified`: the address `0.0.0.0`. -/
def Ipv4Addr.is_unspecified (ip : Ipv4Addr) : Bool :=
  ip.o0 == 0 && ip.o1 == 0 && ip.o2 == 0 && ip.o3 == 0

/-- Rust `Ipv4Addr::is_multicast`: first octet in `224..=239`. -/
def Ipv4Addr.is_multicast (ip : Ipv4Addr) : Bool :=
  224 ≤ ip.o0 && ip.o0 ≤ 239

/-- Rust `Ipv4Addr::is_link_local`: the block `169.254.0.0/16`. -/
def Ipv4Addr.is_link_local (ip : Ipv4Addr) : Bool :=
  ip.o0 == 169 && ip.o1 == 254

/-- An IPv6 address as eight 16-bit segments, mirroring `std::net::Ipv6Addr`. -/
structure Ipv6Addr where
  s0 : Nat
  s1 : Nat
  s2 : Nat
  s3 : Nat
  s4 : Nat
  s5 : Nat
  s6 : Nat
  s7 : Nat
deriving DecidableEq, Repr

/-- Rust `Ipv6Addr::is_loopback`: the address `::1`. -/
def Ipv6Addr.is_loopback (ip : Ipv6Addr) : Bool :=
  ip.s0 == 0 && ip.s1 == 0 && ip.s2 == 0 && ip.s3 == 0 &&
  ip.s4 == 0 && ip.s5 == 0 && ip.s6 == 0 && ip.s7 == 1

/-- Rust `Ipv6Addr::is_multicast`: segment 0 has the form `0xffxx`. -/
def Ipv6Addr.is_multicast (ip : Ipv6Addr) : Bool :=
  ip.s0 / 256 == 255

/-- Rust `Ipv6Addr::is_unicast_link_local`: segment 0 has the form
`0xfe80..=0xfebf`, i.e. the block `fe80::/10`. -/
def Ipv6Addr.is_unicast_link_local (ip : Ipv6Addr) : Bool :=
  ip.s0 / 64 == 0xfe80 / 64

/-- Rust `Ipv6Addr::to_ipv4_mapped`: `::ffff:a.b.c.d` converts to
`a.b.c.d`, anything else is `None`. -/
def Ipv6Addr.to_ipv4_mapped (ip : Ipv6Addr) : Option Ipv4Addr :=
  if ip.s0 == 0 && ip.s1 == 0 && ip.s2 == 0 && ip.s3 == 0 &&
     ip.s4 == 0 && ip.s5 == 0xffff then
    some ⟨ip.s6 / 256, ip.s6 % 256, ip.s7 / 256, ip.s7 % 256⟩
  else
    none

/-- Rust `std::net::IpAddr`: either of the two address families. -/
inductive IpAddr where
  | v4 (ip : Ipv4Addr)
  | v6 (ip : Ipv6Addr)
deriving DecidableEq, Repr

/-- Whether an `IpAddr` is the IPv4 variant. -/
def IpAddr.is_ipv4 : IpAddr → Bool
  | .v4 _ => true
  | .v6 _ => false

/-- Rust `IpAddr::is_loopback`, dispatching on the family. -/
def IpAddr.is_loopback : IpAddr → Bool
  | .v4 ip => ip.is_loopback
  | .v6 ip => ip.is_loopback

/-- Rust `IpAddr::is_multicast`, dispatching on the family. -/
def IpAddr.is_multicast : IpAddr → Bool
  | .v4 ip => ip.is_multicast
  | .v6 ip => ip.is_multicast

/-- Modelled from the spec: `netwatch::ip::is_link_local` (the `ip` module
is not under `src/`).  Per the glossary and §4.7, link-local means the IPv4
block `169.254.0.0/16` or the IPv6 unicast block `fe80::/10`. -/
def is_link_local : IpAddr → Bool
  | .v4 ip => ip.is_link_local
  | .v6 ip => ip.is_unicast_link_local

end NetTools

namespace NetTools.Pcp

/-- Requested PCP mapping lifetime, `pcp::MAPPING_REQUESTED_LIFETIME_SECONDS`
in `portmapper/src/pcp.rs` (one hour). -/
def MAPPING_REQUESTED_LIFETIME_SECONDS : Nat := 60 * 60

/-- Modelled from the spec: the numeric code of the UDP protocol in a PCP
map request (`pcp::protocol` is not under `src/`; §6 gives `protocol=17`). -/
def UDP_PROTOCOL : Nat := 17

/-- Modelled from the spec: `pcp::protocol::MapData`, the opcode data of a
map response (the `pcp::protocol` module is not under `src/`; the fields are
those destructured by `pcp::Mapping::new` and listed in §6: a 12-byte nonce,
a protocol number, the echoed internal port, the assigned external port and
an IPv6-mapped external address). -/
structure MapData where
  nonce : List Nat
  protocol : Nat
  local_port : Nat
  external_port : Nat
  external_address : Ipv6Addr
deriving DecidableEq, Repr

/-- Modelled from the spec: `pcp::protocol::OpcodeData`, either map data or
an announce response (variants as matched in `pcp::Mapping::new`). -/
inductive OpcodeData where
  | mapData (d : MapData)
  | announce
deriving DecidableEq, Repr

/-- Modelled from the spec: `pcp::protocol::Response` as destructured by
`pcp::Mapping::new`: a lifetime, the server epoch time and opcode data. -/
structure Response where
  lifetime_seconds : Nat
  epoch_time : Nat
  data : OpcodeData
deriving DecidableEq, Repr

/-- The variants of `pcp::Error` (Rust `portmapper/src/pcp.rs`).  The
`io`/`protocol` variants carry sources in Rust; the pure validation step
modelled here never produces them. -/
inductive Error where
  | nonceMissmatch
  | protocolMissmatch
  | portMissmatch
  | zeroExternalPort
  | notIpv4
  | invalidAnnounce
  | io
  | protocolErr
deriving DecidableEq, Repr

/-- A registered PCP mapping, `pcp::Mapping`.  In Rust `external_port` is a
`NonZeroU16`; here it is a `Nat` and non-zeroness is proved from the
construction.  `external_address` being `Ipv4Addr` mirrors the Rust field
type. -/
structure Mapping where
  local_ip : Ipv4Addr
  local_port : Nat
  gateway : Ipv4Addr
  external_port : Nat
  external_address : Ipv4Addr
  lifetime_seconds : Nat
  nonce : List Nat
deriving DecidableEq, Repr

/-- The response-validation step of `pcp::Mapping::new`
(`portmapper/src/pcp.rs` lines 118-168).  The socket I/O, the random nonce
draw and the wire decode are factored out: `nonce` is the nonce that was
sent and `response` the already-decoded server response.  The checks and
their order are exactly those of the source. -/
def Mapping.new (local_ip : Ipv4Addr) (local_port : Nat) (gateway : Ipv4Addr)
    (nonce : List Nat) (response : Response) : Except Error Mapping :=
  match response.data with
  | .mapData md =>
    if nonce ≠ md.nonce then
      .error .nonceMissmatch
    else if md.protocol ≠ UDP_PROTOCOL then
      .error .protocolMissmatch
    else if md.local_port ≠ local_port then
      .error .portMissmatch
    else if md.external_port == 0 then
      .error .zeroExternalPort
    else
      match md.external_address.to_ipv4_mapped with
      | none => .error .notIpv4
      | some v4 =>
        .ok { local_ip := local_ip
              local_port := local_port
              gateway := gateway
              external_port := md.external_port
              external_address := v4
              lifetime_seconds := response.lifetime_seconds
              nonce := nonce }
  | .announce => .error .invalidAnnounce

end NetTools.Pcp

namespace NetTools.NatPmp

/-- Requested NAT-PMP mapping lifetime,
`nat_pmp::MAPPING_REQUESTED_LIFETIME_SECONDS` (two hours). -/
def MAPPING_REQUESTED_LIFETIME_SECONDS : Nat := 60 * 60 * 2

/-- Modelled from the spec: `nat_pmp::protocol::MapProtocol` (the
`nat_pmp::protocol` module is not under `src/`; RFC 6886 maps UDP with
opcode 1 and TCP with opcode 2, the client only ever requests UDP). -/
inductive MapProtocol where
  | udp
  | tcp
deriving DecidableEq, Repr

/-- Modelled from the spec: `nat_pmp::protocol::Response` (module not under
`src/`); §6 gives the map response body `{private_port, external_port,
lifetime}` and the external-address response body `{public_ipv4}`, both
after an epoch-seconds field, matching the variants destructured in
`nat_pmp::Mapping::new`. -/
inductive Response where
  | portMap (proto : MapProtocol) (epoch_time : Nat) (private_port : Nat)
      (external_port : Nat) (lifetime_seconds : Nat)
  | publicAddress (epoch_time : Nat) (public_ip : Ipv4Addr)
deriving DecidableEq, Repr

/-- The variants of `nat_pmp::Error` (Rust `portmapper/src/nat_pmp.rs`). -/
inductive Error where
  | unexpectedServerResponse
  | zeroExternalPort
  | io
  | protocolErr
deriving DecidableEq, Repr

/-- A registered NAT-PMP mapping, `nat_pmp::Mapping`.  In Rust
`external_port` is a `NonZeroU16`; non-zeroness is proved from the
construction.  `external_addr` being `Ipv4Addr` mirrors the Rust field. -/
structure Mapping where
  local_ip : Ipv4Addr
  local_port : Nat
  gateway : Ipv4Addr
  external_port : Nat
  external_addr : Ipv4Addr
  lifetime_seconds : Nat
deriving DecidableEq, Repr

/-- The response-validation step of `nat_pmp::Mapping::new`
(`portmapper/src/nat_pmp.rs` lines 93-137).  Socket I/O and the wire codec
are factored out: `response1` is the decoded answer to the map request and
`response2` the decoded answer to the follow-up external-address request.
The match guards mirror the source: the first response must be a UDP
port-map echoing the local port, then a zero external port is rejected,
then the second response must be a public-address answer. -/
def Mapping.new (local_ip : Ipv4Addr) (local_port : Nat) (gateway : Ipv4Addr)
    (response1 response2 : Response) : Except Error Mapping :=
  match response1 with
  | .portMap proto _epoch private_port external_port lifetime_seconds =>
    if proto == MapProtocol.udp && private_port == local_port then
      if external_port == 0 then
        .error .zeroExternalPort
      else
        match response2 with
        | .publicAddress _epoch2 public_ip =>
          .ok { local_ip := local_ip
                local_port := local_port
                gateway := gateway
                external_port := external_port
                external_addr := public_ip
                lifetime_seconds := lifetime_seconds }
        | _ => .error .unexpectedServerResponse
    else
      .error .unexpectedServerResponse
  | _ => .error .unexpectedServerResponse

end NetTools.NatPmp

namespace NetTools.Upnp

/-- Lease duration asked of the router in every UPnP mapping request,
`upnp::PORT_MAPPING_LEASE_DURATION_SECONDS` (`portmapper/src/upnp.rs`
line 20).  The source sets it to `0`, which the source comment glosses as
an infinite lease. -/
def PORT_MAPPING_LEASE_DURATION_SECONDS : Nat := 0

/-- Fixed half lifetime assumed for UPnP mappings, `upnp::HALF_LIFETIME`
(one hour, in seconds). -/
def HALF_LIFETIME : Nat := 60 * 60

/-- An IGD gateway handle (`upnp::Gateway` wraps an `igd_next` device); the
model only needs its identity. -/
structure Gateway where
  id : Nat
deriving DecidableEq, Repr

/-- The variants of `upnp::Error` (Rust `portmapper/src/upnp.rs`). -/
inductive Error where
  | zeroExternalPort
  | notIpv4
  | removePort
  | search
  | getExternalIp
  | addAnyPort
  | io
deriving DecidableEq, Repr

/-- A UPnP mapping, `upnp::Mapping`.  In Rust `external_port` is
`NonZeroU16`; non-zeroness is proved from the construction. -/
structure Mapping where
  gateway : Gateway
  external_ip : Ipv4Addr
  external_port : Nat
deriving DecidableEq, Repr

/-- Outcome of the SSDP gateway search in `upnp::Mapping::new`: the outer
timeout (an `Io` error), a search failure, or a found gateway. -/
inductive SearchOutcome where
  | timeout
  | failed
  | found (g : Gateway)
deriving DecidableEq, Repr

/-- The remote-side responses consumed by one run of `upnp::Mapping::new`:
the gateway search outcome, the result of `GetExternalIPAddress`, whether
`AddPortMapping` at the preferred port succeeds, and the port returned by
`AddAnyPortMapping` (or its failure). -/
structure Env where
  search : SearchOutcome
  external_ip : Except Unit IpAddr
  add_port_ok : Bool
  add_any_port : Except Unit Nat
deriving Repr

/-- A SOAP mapping request issued to the gateway, recording the arguments
the source passes: `AddPortMapping(external_port, lease)` or
`AddAnyPortMapping(lease)`. -/
inductive Request where
  | addPortMapping (external_port : Nat) (lease_duration : Nat)
  | addAnyPortMapping (lease_duration : Nat)
deriving DecidableEq, Repr

/-- The lease-duration argument carried by a request. -/
def Request.lease : Request → Nat
  | .addPortMapping _ l => l
  | .addAnyPortMapping l => l

/-- Embedding of `upnp::Mapping::new` (`portmapper/src/upnp.rs` lines
64-139) with the network effects supplied by `env`; the second component
collects the mapping requests issued to the gateway, in order.  The
control flow mirrors the source: reuse or search for a gateway, fetch the
external IP (rejecting IPv6), try `AddPortMapping` at the preferred port if
one was given, and fall back to `AddAnyPortMapping`, rejecting a zero
returned port. -/
def Mapping.new (_local_addr : Ipv4Addr) (_port : Nat)
    (gateway : Option Gateway) (preferred_port : Option Nat) (env : Env) :
    Except Error Mapping × List Request :=
  let gw : Except Error Gateway :=
    match gateway with
    | some known_gateway => .ok known_gateway
    | none =>
      match env.search with
      | .timeout => .error .io
      | .failed => .error .search
      | .found g => .ok g
  match gw with
  | .error e => (.error e, [])
  | .ok gateway =>
    match env.external_ip with
    | .error _ => (.error .getExternalIp, [])
    | .ok (.v6 _) => (.error .notIpv4, [])
    | .ok (.v4 external_ip) =>
      let tryAny (issued : List Request) : Except Error Mapping × List Request :=
        let issued := issued ++ [.addAnyPortMapping PORT_MAPPING_LEASE_DURATION_SECONDS]
        match env.add_any_port with
        | .error _ => (.error .addAnyPort, issued)
        | .ok p =>
          if p == 0 then
            (.error .zeroExternalPort, issued)
          else
            (.ok { gateway := gateway, external_ip := external_ip,
                   external_port := p }, issued)
      match preferred_port with
      | some external_port =>
        let issued := [Request.addPortMapping external_port
          PORT_MAPPING_LEASE_DURATION_SECONDS]
        if env.add_port_ok then
          (.ok { gateway := gateway, external_ip := external_ip,
                 external_port := external_port }, issued)
        else
          tryAny issued
      | none => tryAny []

end NetTools.Upnp

namespace NetTools.Portmapper

/-- Availability trust window, `AVAILABILITY_TRUST_DURATION` in
`portmapper/src/lib.rs` (ten minutes), in seconds. -/
def AVAILABILITY_TRUST_DURATION : Nat := 60 * 10

/-- Unavailability trust window, `UNAVAILABILITY_TRUST_DURATION` in
`portmapper/src/lib.rs` (five seconds), in seconds. -/
def UNAVAILABILITY_TRUST_DURATION : Nat := 5

/-- Output of a port mapping probe, `ProbeOutput` in
`portmapper/src/lib.rs`. -/
structure ProbeOutput where
  upnp : Bool
  pcp : Bool
  nat_pmp : Bool
deriving DecidableEq, Repr

/-- Rust `ProbeOutput::all_available`. -/
def ProbeOutput.all_available (o : ProbeOutput) : Bool :=
  o.upnp && o.pcp && o.nat_pmp

/-- Configuration of enabled protocols, `Config` in
`portmapper/src/lib.rs`. -/
structure Config where
  enable_upnp : Bool
  enable_pcp : Bool
  enable_nat_pmp : Bool
deriving DecidableEq, Repr

/-- Probe freshness record, `Probe` in `portmapper/src/lib.rs`.  Rust
`Instant`s are embedded as `Nat` seconds on a monotone clock. -/
structure Probe where
  last_probe : Nat
  last_upnp_gateway_addr : Option (Upnp.Gateway × Nat)
  last_pcp : Option Nat
  last_nat_pmp : Option Nat
deriving DecidableEq, Repr

/-- Rust `Probe::output` (`portmapper/src/lib.rs` lines 337-361): a
protocol is reported available iff its last-seen instant plus
`AVAILABILITY_TRUST_DURATION` is still in the future.  `Instant::now()` is
passed explicitly as `now`. -/
def Probe.output (p : Probe) (now : Nat) : ProbeOutput :=
  let upnp := (p.last_upnp_gateway_addr.map
    (fun g => decide (now < g.2 + AVAILABILITY_TRUST_DURATION))).getD false
  let pcp := (p.last_pcp.map
    (fun t => decide (now < t + AVAILABILITY_TRUST_DURATION))).getD false
  let nat_pmp := (p.last_nat_pmp.map
    (fun t => decide (now < t + AVAILABILITY_TRUST_DURATION))).getD false
  { upnp := upnp, pcp := pcp, nat_pmp := nat_pmp }

/-- The variants of `ProbeError` in `portmapper/src/lib.rs`. -/
inductive ProbeError where
  | channelFull
  | channelClosed
  | noGateway
  | ipv6Gateway
  | join
deriving DecidableEq, Repr

/-- Rust `netwatch::interfaces::HomeRouter`: the discovered gateway and,
when known, the local address of this machine behind it. -/
structure HomeRouter where
  gateway : IpAddr
  my_ip : Option IpAddr
deriving DecidableEq, Repr

/-- Rust `ip_and_gateway` (`portmapper/src/lib.rs` lines 714-737), with the
`HomeRouter::new()` discovery supplied as the `home_router` argument: no
router means `NoGateway`; a local address that is missing, IPv6,
unspecified, loopback or multicast is replaced by `127.0.0.1`; an IPv6
gateway is rejected with `Ipv6Gateway`. -/
def ip_and_gateway (home_router : Option HomeRouter) :
    Except ProbeError (Ipv4Addr × Ipv4Addr) :=
  match home_router with
  | none => .error .noGateway
  | some hr =>
    let local_ip : Ipv4Addr :=
      match hr.my_ip with
      | some (.v4 ip) =>
        if !ip.is_unspecified && !ip.is_loopback && !ip.is_multicast then
          ip
        else
          Ipv4Addr.localhost
      | _ => Ipv4Addr.localhost
    match hr.gateway with
    | .v6 _ => .error .ipv6Gateway
    | .v4 gateway => .ok (local_ip, gateway)

/-- The three port-mapping protocols a mapping task can use. -/
inductive Protocol where
  | pcp
  | natPmp
  | upnp
deriving DecidableEq, Repr

/-- The protocol-selection chain of `Service::get_mapping`
(`portmapper/src/lib.rs` lines 624-668): the `if`/`else if` cascade that
decides which mapping task to spawn, given the probe output, the enabled
protocols and whether a probe ran recently; `none` is the final
give-up branch. -/
def select_protocol (output : ProbeOutput) (config : Config)
    (recently_probed : Bool) : Option Protocol :=
  if output.pcp then
    some .pcp
  else if output.nat_pmp then
    some .natPmp
  else if output.upnp || config.enable_upnp then
    some .upnp
  else if !recently_probed && config.enable_pcp then
    some .pcp
  else if !recently_probed && config.enable_nat_pmp then
    some .natPmp
  else
    none

/-- The priority list of §4.1 of the spec, written as stated there:
1. `pcp` → PCP; 2. `nat_pmp` → NAT-PMP; 3. `upnp ∨ enable_upnp` → UPnP;
4. `¬recently_probed ∧ enable_pcp` → PCP; 5. `¬recently_probed ∧
enable_nat_pmp` → NAT-PMP; 6. give up.  Kept separate from
`select_protocol` (which is translated from the source) so that the two
can be compared. -/
def select_protocol_spec (output : ProbeOutput) (config : Config)
    (recently_probed : Bool) : Option Protocol :=
  if output.pcp = true then some .pcp
  else if output.nat_pmp = true then some .natPmp
  else if output.upnp = true ∨ config.enable_upnp = true then some .upnp
  else if ¬recently_probed = true ∧ config.enable_pcp = true then some .pcp
  else if ¬recently_probed = true ∧ config.enable_nat_pmp = true then
    some .natPmp
  else none

end NetTools.Portmapper

namespace NetTools.Interfaces

/-- An IPv4 network, `netdev::ipnet::Ipv4Net`: address plus prefix length
(the netmask the Rust `PartialEq` also compares is a function of the
prefix length, so structural equality coincides with it). -/
structure Ipv4Net where
  addr : Ipv4Addr
  prefix_len : Nat
deriving DecidableEq, Repr

/-- An IPv6 network, `netdev::ipnet::Ipv6Net` (same remark on equality). -/
structure Ipv6Net where
  addr : Ipv6Addr
  prefix_len : Nat
deriving DecidableEq, Repr

/-- Rust `interfaces::IpNet`: either family of network. -/
inductive IpNet where
  | v4 (n : Ipv4Net)
  | v6 (n : Ipv6Net)
deriving DecidableEq, Repr

/-- Rust `IpNet::addr`. -/
def IpNet.addr : IpNet → IpAddr
  | .v4 n => .v4 n.addr
  | .v6 n => .v6 n.addr

/-- Rust `interfaces::Interface`, keeping the `netdev` fields the code
reads: index, name, flags, MAC and the two prefix lists. -/
structure Interface where
  index : Nat
  name : String
  flags : Nat
  mac_addr : Option (List Nat)
  ipv4 : List Ipv4Net
  ipv6 : List Ipv6Net
deriving DecidableEq, Repr

/-- Rust `Interface::addrs`: the v4 prefixes then the v6 prefixes. -/
def Interface.addrs (i : Interface) : List IpNet :=
  i.ipv4.map IpNet.v4 ++ i.ipv6.map IpNet.v6

/-- The custom `PartialEq for Interface` (`netwatch/src/interfaces.rs`
lines 54-62): only index, name, flags and MAC octets are compared — the
prefix lists are not. -/
def Interface.peq (a b : Interface) : Bool :=
  a.index == b.index && a.name == b.name && a.flags == b.flags &&
  a.mac_addr == b.mac_addr

/-- Rust `netmon::is_interesting_interface` as defined for the Linux and
Android backends in `src/` (`netwatch/src/netmon/linux.rs` line 209): every
interface is interesting. -/
def is_interesting_interface (_name : String) : Bool := true

/-- Rust `interfaces::State`: the interface map plus the aggregate flags.
The `HashMap` is embedded as an association list; `is_major_change` only
ever folds over all entries, so iteration order does not matter. -/
structure State where
  interfaces : List (String × Interface)
  have_v6 : Bool
  have_v4 : Bool
  is_expensive : Bool
  default_route_interface : Option String
deriving DecidableEq, Repr

/-- Rust `prefixes_major_equal` (`netwatch/src/interfaces.rs` lines
406-426): drop the link-local, loopback and multicast prefixes from both
sides, then compare the remaining sequences pointwise with `zip` (trailing
extra prefixes on the longer side are never looked at). -/
def prefixes_major_equal (a b : List IpNet) : Bool :=
  let is_interesting : IpNet → Bool := fun p =>
    !(is_link_local p.addr || p.addr.is_loopback || p.addr.is_multicast)
  let a := a.filter is_interesting
  let b := b.filter is_interesting
  (a.zip b).all fun x => x.1 == x.2

/-- Rust `State::is_major_change` (`netwatch/src/interfaces.rs` lines
269-293), called as `new.is_major_change(&old)` with `self` the new state:
true if any aggregate flag changed, or if some interesting interface of
the old state is missing from the new state, differs under the custom
interface equality, or fails `prefixes_major_equal`. -/
def State.is_major_change (s old : State) : Bool :=
  if s.have_v6 != old.have_v6 || s.have_v4 != old.have_v4 ||
     s.is_expensive != old.is_expensive ||
     s.default_route_interface != old.default_route_interface then
    true
  else
    old.interfaces.any fun entry =>
      is_interesting_interface entry.2.name &&
      (match s.interfaces.lookup entry.1 with
       | none => true
       | some i2 =>
         !Interface.peq entry.2 i2 ||
         !prefixes_major_equal entry.2.addrs i2.addrs)

end NetTools.Interfaces

namespace NetTools.Portmapper

/-- Descriptor of a spawned mapping task: the protocol chosen by
`Service::get_mapping` and the previous external address forwarded to it. -/
structure MappingTask where
  proto : Protocol
  external_addr : Option (Ipv4Addr × Nat)
deriving DecidableEq, Repr

/-- The supervisor state of `Service` (`portmapper/src/lib.rs` lines
411-433) as far as its message handlers read and write it.  Tasks are kept
as descriptors; `current_external` is what `CurrentMapping::external()`
returns.  Modelled from the spec: the `current_mapping` module is not
under `src/`, §4.6 says the watcher owns `Option<Mapping>` and publishes
the current external ⟨IPv4, port⟩, which is all the handlers use here.
`probing_task` keeps the number of waiting reply channels. -/
structure ServiceState where
  config : Config
  local_port : Option Nat
  mapping_task : Option MappingTask
  current_external : Option (Ipv4Addr × Nat)
  full_probe : Probe
  probing_task : Option Nat
deriving DecidableEq, Repr

/-- The effectful inputs a handler run consumes: the current instant and
the result of the `HomeRouter::new()` gateway discovery. -/
structure ServiceEnv where
  now : Nat
  home_router : Option HomeRouter
deriving DecidableEq, Repr

/-- Rust `Service::get_mapping` (`portmapper/src/lib.rs` lines 605-670):
with no local port set, do nothing; if gateway discovery fails, do
nothing; otherwise run the selection chain and spawn the chosen task (the
give-up branch returns leaving the task slot as it was). -/
def ServiceState.get_mapping (s : ServiceState) (env : ServiceEnv)
    (external_addr : Option (Ipv4Addr × Nat)) : ServiceState :=
  match s.local_port with
  | none => s
  | some _ =>
    match ip_and_gateway env.home_router with
    | .error _ => s
    | .ok _ =>
      let output := s.full_probe.output env.now
      let recently_probed :=
        decide (env.now < s.full_probe.last_probe + UNAVAILABILITY_TRUST_DURATION)
      match select_protocol output s.config recently_probed with
      | some proto =>
        { s with mapping_task := some ⟨proto, external_addr⟩ }
      | none => s

/-- Rust `Service::update_local_port` (`portmapper/src/lib.rs` lines
566-603).  On a port change: store the new port, drop the in-flight
mapping task, read the current external address, invalidate (and remotely
release) the current mapping if there is one, and start a new mapping task
for the old external address.  On an unchanged port: attempt a mapping
only when none is active. -/
def ServiceState.update_local_port (s : ServiceState) (env : ServiceEnv)
    (local_port : Option Nat) : ServiceState :=
  if local_port ≠ s.local_port then
    let s1 := { s with local_port := local_port, mapping_task := none }
    let external_addr := s1.current_external
    let s2 :=
      if external_addr.isSome then { s1 with current_external := none } else s1
    s2.get_mapping env external_addr
  else if s.current_external == none then
    s.get_mapping env none
  else
    s

/-- Rust `Service::probe_request` (`portmapper/src/lib.rs` lines 677-711):
join an in-flight probe, answer immediately from fresh output, or start a
probe task (unless gateway discovery fails). -/
def ServiceState.probe_request (s : ServiceState) (env : ServiceEnv) :
    ServiceState :=
  match s.probing_task with
  | some n => { s with probing_task := some (n + 1) }
  | none =>
    if (s.full_probe.output env.now).all_available then
      s
    else
      match ip_and_gateway env.home_router with
      | .error _ => s
      | .ok _ => { s with probing_task := some 1 }

/-- The inbound messages of `Message` in `portmapper/src/lib.rs`. -/
inductive Message where
  | procureMapping
  | updateLocalPort (local_port : Option Nat)
  | probe
deriving DecidableEq, Repr

/-- Rust `Service::handle_msg` (`portmapper/src/lib.rs` lines 554-560):
`ProcureMapping` delegates to `update_local_port` with the stored port. -/
def ServiceState.handle_msg (s : ServiceState) (env : ServiceEnv)
    (msg : Message) : ServiceState :=
  match msg with
  | .procureMapping => s.update_local_port env s.local_port
  | .updateLocalPort local_port => s.update_local_port env local_port
  | .probe => s.probe_request env

end NetTools.Portmapper

namespace NetTools.Bsd

/-- The variants of `RouteError` (`netwatch/src/interfaces/bsd.rs`). -/
inductive RouteError where
  | messageMismatch
  | messageTooShort
  | invalidMessage
  | invalidAddress
  | invalidRibType
  | io
deriving DecidableEq, Repr

/-- A parsed routing message; the claim settled against this model only
depends on how the `parse_rib` loop walks the buffer, so the payload of a
successfully parsed message is kept abstract as an identifier. -/
structure RibMessage where
  id : Nat
deriving DecidableEq, Repr

/-- The per-message-type wire format (`WireFormat` in
`netwatch/src/interfaces/bsd.rs`).  Its `parse` method dispatches to one
of five fixed-header parsers; those are platform-specific and irrelevant
to the outer loop, so the body parser is carried as a function on the
message slice. -/
structure WireFormat where
  parse : List Nat → Except RouteError (Option RibMessage)

/-- The lazily initialised `RoutingStack` of
`netwatch/src/interfaces/bsd.rs`.  Modelled from the spec: the values of
`rtm_version` and the wire-format table come from `probe_routing_stack` in
per-OS submodules that are not under `src/` (§9: platform constants read
once and treated as immutable), so they are carried as parameters. -/
structure RoutingStack where
  rtm_version : Nat
  wire_formats : Nat → Option WireFormat

/-- Rust `u16_from_ne_range(data, ..2)`: the first two bytes as a
native-endian `u16` (all supported targets are little-endian here), or
`MessageTooShort`. -/
def u16_from_ne (data : List Nat) : Except RouteError Nat :=
  match data with
  | b0 :: b1 :: _ => .ok (b0 % 256 + 256 * (b1 % 256))
  | _ => .error .messageTooShort

/-- The `while b.len() > 4` loop of `parse_rib`
(`netwatch/src/interfaces/bsd.rs` lines 454-490), made total with a fuel
argument: `none` means the loop has not finished within `fuel`
iterations, so divergence of the source loop shows as `none` for every
fuel.  The loop body is translated line by line; in particular, in the
branch for a message whose version byte disagrees with `rtm_version` the
source `continue`s with the advance `b = &b[l..]` commented out, so the
buffer is not advanced there. -/
def parse_rib_loop (stack : RoutingStack) :
    Nat → List Nat → Nat → Nat → List RibMessage →
    Option (Except RouteError (List RibMessage))
  | 0, _, _, _, _ => none
  | fuel + 1, b, nmsgs, nskips, msgs =>
    if 4 < b.length then
      let nmsgs := nmsgs + 1
      match u16_from_ne b with
      | .error e => some (.error e)
      | .ok l =>
        if l == 0 then
          some (.error .invalidMessage)
        else if b.length < l then
          some (.error .messageTooShort)
        else if b.getD 2 0 ≠ stack.rtm_version then
          parse_rib_loop stack fuel b nmsgs nskips msgs
        else
          match stack.wire_formats (b.getD 3 0) with
          | some w =>
            match w.parse (b.take l) with
            | .error e => some (.error e)
            | .ok (some m) =>
              parse_rib_loop stack fuel (b.drop l) nmsgs nskips (msgs ++ [m])
            | .ok none =>
              parse_rib_loop stack fuel (b.drop l) nmsgs (nskips + 1) msgs
          | none =>
            parse_rib_loop stack fuel (b.drop l) nmsgs (nskips + 1) msgs
    else if nmsgs == msgs.length + nskips then
      some (.ok msgs)
    else
      some (.error .messageMismatch)

/-- Rust `parse_rib` (`netwatch/src/interfaces/bsd.rs` lines 448-491) on an
already-validated RIB type, running the loop from the empty state. -/
def parse_rib (stack : RoutingStack) (fuel : Nat) (data : List Nat) :
    Option (Except RouteError (List RibMessage)) :=
  parse_rib_loop stack fuel data 0 0 []

/-- A concrete routing stack for evaluating the model: Darwin's
`RTM_VERSION` is 5; the wire-format table is irrelevant on the path under
test and is left empty. -/
def stack_rtm5 : RoutingStack :=
  { rtm_version := 5, wire_formats := fun _ => none }

/-- A concrete RIB buffer holding one well-formed 16-byte message whose
declared length is 16 and whose version byte (offset 2) is 4, disagreeing
with `rtm_version` 5. -/
def rib_version4 : List Nat :=
  [16, 0, 4, 1, 0, 0, 0, 0, 0, 0, 0, 0, 0, 0, 0, 0]

end NetTools.Bsd

namespace NetTools.Interfaces

/-- The claim of the spec for `is_major_change`, written as stated there:
a change is major iff `have_v4`, `have_v6` or `default_route_interface`
changed, or some interesting interface appeared in the new state,
disappeared from it, or changed its prefixes (with loopback, link-local
and multicast prefixes ignored in the comparison).  Kept separate from
`State.is_major_change` (which is translated from the source) so the two
can be compared. -/
def major_change_claim (s old : State) : Bool :=
  s.have_v4 != old.have_v4 || s.have_v6 != old.have_v6 ||
  s.default_route_interface != old.default_route_interface ||
  (s.interfaces.any fun p =>
    is_interesting_interface p.2.name && (old.interfaces.lookup p.1).isNone) ||
  (old.interfaces.any fun p =>
    is_interesting_interface p.2.name && (s.interfaces.lookup p.1).isNone) ||
  (old.interfaces.any fun p =>
    is_interesting_interface p.2.name &&
    (match s.interfaces.lookup p.1 with
     | none => false
     | some i2 =>
       decide (p.2.addrs.filter (fun q =>
           !(is_link_local q.addr || q.addr.is_loopback || q.addr.is_multicast)) ≠
         i2.addrs.filter (fun q =>
           !(is_link_local q.addr || q.addr.is_loopback || q.addr.is_multicast)))))

/-- What `State.is_major_change` actually decides, stated declaratively:
an aggregate flag (`have_v4`, `have_v6`, `is_expensive`,
`default_route_interface`) changed, or some interesting interface of the
old state is missing from the new state, differs under the
index/name/flags/MAC equality, or fails the zip-pointwise comparison of
the filtered prefix lists.  Interfaces present only in the new state play
no part. -/
def major_change_amended (s old : State) : Prop :=
  s.have_v6 ≠ old.have_v6 ∨ s.have_v4 ≠ old.have_v4 ∨
  s.is_expensive ≠ old.is_expensive ∨
  s.default_route_interface ≠ old.default_route_interface ∨
  ∃ p ∈ old.interfaces, is_interesting_interface p.2.name = true ∧
    (s.interfaces.lookup p.1 = none ∨
     ∃ i2, s.interfaces.lookup p.1 = some i2 ∧
       (Interface.peq p.2 i2 = false ∨
        prefixes_major_equal p.2.addrs i2.addrs = false))

/-- A concrete interface (the shape of `Interface::fake` in the source). -/
def iface_wifi0 : Interface :=
  { index := 2
    name := "wifi0"
    flags := 69699
    mac_addr := some [2, 3, 4, 5, 6, 7]
    ipv4 := [⟨⟨192, 168, 0, 189⟩, 24⟩]
    ipv6 := [] }

/-- A concrete old state with no interfaces at all. -/
def state_no_ifaces : State :=
  { interfaces := []
    have_v6 := true
    have_v4 := true
    is_expensive := false
    default_route_interface := some "wifi0" }

/-- The same state after `wifi0` appeared: aggregate flags unchanged, one
new interesting interface. -/
def state_wifi0_appeared : State :=
  { state_no_ifaces with interfaces := [("wifi0", iface_wifi0)] }

end NetTools.Interfaces

namespace NetTools.Portmapper

/-- A probe that has never seen any protocol. -/
def probe_empty : Probe :=
  { last_probe := 0
    last_upnp_gateway_addr := none
    last_pcp := none
    last_nat_pmp := none }

/-- A supervisor state with no local port, no tasks and no mapping. -/
def service_state_idle : ServiceState :=
  { config := ⟨true, true, true⟩
    local_port := none
    mapping_task := none
    current_external := none
    full_probe := probe_empty
    probing_task := none }

/-- The idle state with an active mapping installed. -/
def service_state_mapped : ServiceState :=
  { service_state_idle with
    local_port := some 41641
    current_external := some (⟨203, 0, 113, 7⟩, 55555) }

/-- An environment where gateway discovery succeeds at instant 100. -/
def service_env_ok : ServiceEnv :=
  { now := 100
    home_router := some ⟨.v4 ⟨192, 168, 0, 1⟩, some (.v4 ⟨192, 168, 0, 189⟩)⟩ }

end NetTools.Portmapper

namespace NetTools

/-- C1: refuted as stated — the code has a bug.  For a RIB buffer holding
a single well-formed message whose version byte (offset 2) differs from
the platform `rtm_version`, `parse_rib` does not terminate: in the
version-mismatch branch the source `continue`s with the advance past the
message commented out, so the loop re-reads the same message forever (and
never counts it as skipped).  In the fuel model this shows as the loop
finishing under no fuel bound at all. -/
theorem parse_rib_version_mismatch_diverges :
    ∀ fuel : Nat, Bsd.parse_rib Bsd.stack_rtm5 fuel Bsd.rib_version4 = none := by
  have h : ∀ fuel nmsgs nskips msgs,
      Bsd.parse_rib_loop Bsd.stack_rtm5 fuel Bsd.rib_version4 nmsgs nskips msgs
        = none := by
    intro fuel
    induction fuel with
    | zero => intro nmsgs nskips msgs; rfl
    | succ n ih =>
      intro nmsgs nskips msgs
      exact ih (nmsgs + 1) nskips msgs
  intro fuel
  exact h fuel 0 0 []

/-- C2: confirmed.  The selection chain of `Service::get_mapping` agrees
with the priority list of the spec on all inputs, and whenever the probe
reports PCP available the attempt uses PCP regardless of the config. -/
theorem select_protocol_matches_spec_priority :
    ∀ (upnp pcp nat_pmp enable_upnp enable_pcp enable_nat_pmp
        recently_probed : Bool),
      Portmapper.select_protocol ⟨upnp, pcp, nat_pmp⟩
          ⟨enable_upnp, enable_pcp, enable_nat_pmp⟩ recently_probed
        = Portmapper.select_protocol_spec ⟨upnp, pcp, nat_pmp⟩
          ⟨enable_upnp, enable_pcp, enable_nat_pmp⟩ recently_probed
      ∧ (pcp = true →
          Portmapper.select_protocol ⟨upnp, pcp, nat_pmp⟩
            ⟨enable_upnp, enable_pcp, enable_nat_pmp⟩ recently_probed
          = some .pcp) := by
  decide

/-- Witness for C2 at a concrete input: with everything reported
available and everything disabled by config, the attempt uses PCP. -/
theorem select_protocol_matches_spec_priority_witness :
    Portmapper.select_protocol ⟨true, true, true⟩ ⟨false, false, false⟩ true
      = some .pcp :=
  (select_protocol_matches_spec_priority true true true false false false
    true).2 rfl

end NetTools

namespace NetTools

/-- C3 counterexample: a concrete run of `upnp::Mapping::new` (gateway
already known, no preferred port, external IP `203.0.113.7`,
`AddAnyPortMapping` returning port 55555) issues exactly one
`AddAnyPortMapping` request, and its lease duration is 0, not the 7200
seconds the spec claims. -/
theorem upnp_lease_not_two_hours :
    (Upnp.Mapping.new ⟨192, 168, 1, 10⟩ 41641 (some ⟨1⟩) none
        ⟨.found ⟨1⟩, .ok (.v4 ⟨203, 0, 113, 7⟩), false, .ok 55555⟩).2
      = [Upnp.Request.addAnyPortMapping 0]
    ∧ Upnp.Request.lease (Upnp.Request.addAnyPortMapping 0) ≠ 7200 := by
  decide

/-- C3 amended: every `AddPortMapping` and `AddAnyPortMapping` request
issued by `upnp::Mapping::new` carries a lease duration of 0 seconds
(`PORT_MAPPING_LEASE_DURATION_SECONDS`, an infinite lease), on every
input and every sequence of gateway responses. -/
theorem upnp_lease_duration_always_zero :
    ∀ (local_addr : Ipv4Addr) (port : Nat) (gateway : Option Upnp.Gateway)
      (preferred_port : Option Nat) (env : Upnp.Env),
      ((Upnp.Mapping.new local_addr port gateway preferred_port env).2.all
        fun r => r.lease == 0) = true := by
  intro local_addr port gateway preferred_port env
  obtain ⟨search, external_ip, add_port_ok, add_any_port⟩ := env
  unfold Upnp.Mapping.new
  rcases gateway with _ | g <;> rcases search with _ | _ | g2 <;>
    rcases external_ip with _ | ip <;> try rfl
  all_goals rcases ip with ip4 | ip6 <;> try rfl
  all_goals rcases preferred_port with _ | pp <;> rcases add_port_ok <;>
    rcases add_any_port with _ | p <;> try rfl
  all_goals cases hpp : (p == 0) <;>
    simp [hpp, Upnp.Request.lease, Upnp.PORT_MAPPING_LEASE_DURATION_SECONDS]

/-- C5: confirmed.  The validation of a decoded PCP map response in
`pcp::Mapping::new` fails with exactly the listed error at the first
violated check, in the order the checks are written (nonce, protocol,
echoed port, zero external port, IPv4-mapped address), an announce
response is `InvalidAnnounce`, and the construction succeeds exactly when
every check passes. -/
theorem pcp_mapping_new_validation :
    ∀ (local_ip : Ipv4Addr) (local_port : Nat) (gateway : Ipv4Addr)
      (nonce : List Nat) (r : Pcp.Response),
      (Pcp.Mapping.new local_ip local_port gateway nonce r
          = .error .invalidAnnounce ↔ r.data = .announce)
      ∧ (∀ md, r.data = .mapData md →
          ((Pcp.Mapping.new local_ip local_port gateway nonce r
              = .error .nonceMissmatch ↔ nonce ≠ md.nonce)
          ∧ (Pcp.Mapping.new local_ip local_port gateway nonce r
              = .error .protocolMissmatch ↔
                nonce = md.nonce ∧ md.protocol ≠ Pcp.UDP_PROTOCOL)
          ∧ (Pcp.Mapping.new local_ip local_port gateway nonce r
              = .error .portMissmatch ↔
                nonce = md.nonce ∧ md.protocol = Pcp.UDP_PROTOCOL ∧
                md.local_port ≠ local_port)
          ∧ (Pcp.Mapping.new local_ip local_port gateway nonce r
              = .error .zeroExternalPort ↔
                nonce = md.nonce ∧ md.protocol = Pcp.UDP_PROTOCOL ∧
                md.local_port = local_port ∧ md.external_port = 0)
          ∧ (Pcp.Mapping.new local_ip local_port gateway nonce r
              = .error .notIpv4 ↔
                nonce = md.nonce ∧ md.protocol = Pcp.UDP_PROTOCOL ∧
                md.local_port = local_port ∧ md.external_port ≠ 0 ∧
                md.external_address.to_ipv4_mapped = none)
          ∧ ((∃ m, Pcp.Mapping.new local_ip local_port gateway nonce r
              = .ok m) ↔
                nonce = md.nonce ∧ md.protocol = Pcp.UDP_PROTOCOL ∧
                md.local_port = local_port ∧ md.external_port ≠ 0 ∧
                md.external_address.to_ipv4_mapped ≠ none))) := by
  intro local_ip local_port gateway nonce r
  obtain ⟨ls, et, data⟩ := r
  cases data with
  | announce => simp [Pcp.Mapping.new]
  | mapData md =>
    refine ⟨?_, ?_⟩
    · simp only [Pcp.Mapping.new]
      split_ifs <;> (try split) <;> simp
    · intro md2 hmd
      obtain rfl : md = md2 := by injection hmd
      simp only [Pcp.Mapping.new]
      split_ifs with h1 h2 h3 h4 <;> (try split) <;> simp_all

/-- Witness for C5 at concrete inputs: a map response echoing a different
nonce is rejected with `NonceMissmatch`. -/
theorem pcp_mapping_new_validation_witness :
    Pcp.Mapping.new ⟨192, 168, 1, 10⟩ 41641 ⟨192, 168, 1, 1⟩ [0, 1, 2]
        ⟨3600, 7, .mapData ⟨[9, 9, 9], 17, 41641, 55555,
          ⟨0, 0, 0, 0, 0, 0xffff, 0xcb00, 0x7107⟩⟩⟩
      = .error .nonceMissmatch :=
  ((pcp_mapping_new_validation ⟨192, 168, 1, 10⟩ 41641 ⟨192, 168, 1, 1⟩
      [0, 1, 2] ⟨3600, 7, .mapData ⟨[9, 9, 9], 17, 41641, 55555,
        ⟨0, 0, 0, 0, 0, 0xffff, 0xcb00, 0x7107⟩⟩⟩).2 _ rfl).1.mpr
    (by decide)

/-- C6: confirmed.  With a protocol last seen at instant `t` and no later
update, `Probe::output` reports it available at exactly the instants `now`
with `now - t < AVAILABILITY_TRUST_DURATION` (ten minutes), and a protocol
never seen is reported unavailable; the other protocols' records do not
interfere. -/
theorem probe_output_freshness :
    ∀ (lp t now : Nat) (gw : Upnp.Gateway)
      (ou : Option (Upnp.Gateway × Nat)) (opc onp : Option Nat),
      ((Portmapper.Probe.output ⟨lp, some (gw, t), opc, onp⟩ now).upnp = true
          ↔ now - t < Portmapper.AVAILABILITY_TRUST_DURATION)
      ∧ ((Portmapper.Probe.output ⟨lp, ou, some t, onp⟩ now).pcp = true
          ↔ now - t < Portmapper.AVAILABILITY_TRUST_DURATION)
      ∧ ((Portmapper.Probe.output ⟨lp, ou, opc, some t⟩ now).nat_pmp = true
          ↔ now - t < Portmapper.AVAILABILITY_TRUST_DURATION)
      ∧ (Portmapper.Probe.output ⟨lp, none, opc, onp⟩ now).upnp = false
      ∧ (Portmapper.Probe.output ⟨lp, ou, none, onp⟩ now).pcp = false
      ∧ (Portmapper.Probe.output ⟨lp, ou, opc, none⟩ now).nat_pmp = false := by
  intro lp t now gw ou opc onp
  refine ⟨?_, ?_, ?_, rfl, rfl, rfl⟩ <;>
    · simp [Portmapper.Probe.output, Portmapper.AVAILABILITY_TRUST_DURATION]
      omega

/-- C7 counterexample: a NAT-PMP map response whose external port field is
0 but whose echoed internal port (2) differs from the requested one (1) is
rejected with `UnexpectedServerResponse`, not with the `ZeroExternalPort`
the claim demands for every zero-external-port response. -/
theorem nat_pmp_zero_port_not_always_zero_error :
    NatPmp.Mapping.new ⟨192, 168, 1, 10⟩ 1 ⟨192, 168, 1, 1⟩
        (.portMap .udp 0 2 0 3600) (.publicAddress 0 ⟨20, 0, 0, 1⟩)
      = .error .unexpectedServerResponse
    ∧ NatPmp.Error.unexpectedServerResponse ≠ NatPmp.Error.zeroExternalPort :=
  ⟨rfl, by decide⟩

/-- C7 amended: for NAT-PMP and PCP, mapping construction fails for every
response whose echoed internal port differs from the requested local port;
it fails with `ZeroExternalPort` for every response that passes the checks
preceding the zero-port check (NAT-PMP: a UDP port-map echoing the
requested port; PCP: a map response with matching nonce, UDP protocol and
matching port) and carries external port 0; and no mapping with external
port 0 is ever constructed by either client. -/
theorem port_echo_and_zero_external_port :
    ∀ (local_ip gateway : Ipv4Addr) (local_port : Nat)
      (r1 r2 : NatPmp.Response) (nonce : List Nat) (rp : Pcp.Response),
      (∀ proto et pp ep ls, r1 = .portMap proto et pp ep ls → pp ≠ local_port →
        ∃ e, NatPmp.Mapping.new local_ip local_port gateway r1 r2 = .error e)
      ∧ (∀ et ls, r1 = .portMap .udp et local_port 0 ls →
          NatPmp.Mapping.new local_ip local_port gateway r1 r2
            = .error .zeroExternalPort)
      ∧ (∀ m, NatPmp.Mapping.new local_ip local_port gateway r1 r2 = .ok m →
          m.external_port ≠ 0)
      ∧ (∀ md, rp.data = .mapData md → md.local_port ≠ local_port →
          ∃ e, Pcp.Mapping.new local_ip local_port gateway nonce rp = .error e)
      ∧ (∀ md, rp.data = .mapData md → nonce = md.nonce →
          md.protocol = Pcp.UDP_PROTOCOL → md.local_port = local_port →
          md.external_port = 0 →
          Pcp.Mapping.new local_ip local_port gateway nonce rp
            = .error .zeroExternalPort)
      ∧ (∀ m, Pcp.Mapping.new local_ip local_port gateway nonce rp = .ok m →
          m.external_port ≠ 0) := by
  intro local_ip gateway local_port r1 r2 nonce rp
  obtain ⟨ls0, et0, data⟩ := rp
  refine ⟨?_, ?_, ?_, ?_, ?_, ?_⟩
  · rintro proto et pp ep ls rfl hpp
    cases proto <;> simp [NatPmp.Mapping.new, hpp]
  · rintro et ls rfl
    simp [NatPmp.Mapping.new]
  · intro m hm
    cases r1 with
    | publicAddress et ip => simp [NatPmp.Mapping.new] at hm
    | portMap proto et pp ep ls =>
      by_cases h : (proto == NatPmp.MapProtocol.udp && pp == local_port) = true
      · simp only [NatPmp.Mapping.new, h, if_true] at hm
        by_cases hz : (ep == 0) = true
        · simp [hz] at hm
        · cases r2 with
          | portMap p2 e2 pp2 ep2 ls2 => simp [hz] at hm
          | publicAddress e2 ip2 =>
            simp only [hz, Bool.false_eq_true, if_false] at hm
            obtain rfl : NatPmp.Mapping.mk local_ip local_port gateway ep ip2 ls = m := by
              injection hm
            intro hzero
            subst hzero
            simp at hz
      · simp [NatPmp.Mapping.new, h] at hm
  · rintro md rfl hport
    simp only [Pcp.Mapping.new]
    split_ifs <;> exact ⟨_, rfl⟩
  · rintro md rfl hnonce hproto hport hz
    simp [Pcp.Mapping.new, hnonce, hproto, hport, hz]
  · intro m hm
    cases data with
    | announce => simp [Pcp.Mapping.new] at hm
    | mapData md =>
      simp only [Pcp.Mapping.new] at hm
      split_ifs at hm with h1 h2 h3 h4
      · cases h5 : md.external_address.to_ipv4_mapped with
        | none => rw [h5] at hm; cases hm
        | some v4 =>
          rw [h5] at hm
          obtain rfl : _ = m := by injection hm
          intro hzero
          simp only at hzero
          simp [hzero] at h4

/-- Witness for C7 at concrete inputs: a UDP port-map response echoing the
requested port with external port 0 yields `ZeroExternalPort`. -/
theorem port_echo_and_zero_external_port_witness :
    NatPmp.Mapping.new ⟨192, 168, 1, 10⟩ 41641 ⟨192, 168, 1, 1⟩
        (.portMap .udp 7 41641 0 3600) (.publicAddress 0 ⟨20, 0, 0, 1⟩)
      = .error .zeroExternalPort :=
  (port_echo_and_zero_external_port ⟨192, 168, 1, 10⟩ ⟨192, 168, 1, 1⟩ 41641
      (.portMap .udp 7 41641 0 3600) (.publicAddress 0 ⟨20, 0, 0, 1⟩) []
      ⟨0, 0, .announce⟩).2.1 7 3600 rfl

/-- C8 counterexample: in a supervisor state with no local port, no active
mapping and no mapping task, and with gateway discovery succeeding,
handling `ProcureMapping` leaves the state unchanged and starts no mapping
task, although no mapping exists — against the claim that a fresh mapping
attempt is started whenever no mapping exists. -/
theorem procure_mapping_no_attempt_without_port :
    Portmapper.ServiceState.handle_msg Portmapper.service_state_idle
        Portmapper.service_env_ok .procureMapping
      = Portmapper.service_state_idle
    ∧ Portmapper.service_state_idle.current_external = none
    ∧ Portmapper.service_state_idle.mapping_task = none := by
  decide

/-- C8 amended: handling `ProcureMapping` is exactly handling
`UpdateLocalPort` with the stored local port; since the port is unchanged
this is a no-op when an active mapping exists, and when no mapping exists
it re-runs `get_mapping`, which starts a fresh mapping attempt only when a
local port is set (and gateway discovery and protocol selection succeed) —
in particular it is also a no-op when no local port is set. -/
theorem procure_mapping_equals_update_with_current_port :
    ∀ (s : Portmapper.ServiceState) (env : Portmapper.ServiceEnv),
      s.handle_msg env .procureMapping
        = s.handle_msg env (.updateLocalPort s.local_port)
      ∧ (s.current_external.isSome = true → s.handle_msg env .procureMapping = s)
      ∧ (s.current_external = none →
          s.handle_msg env .procureMapping = s.get_mapping env none)
      ∧ (s.local_port = none → s.handle_msg env .procureMapping = s) := by
  intro s env
  refine ⟨rfl, ?_, ?_, ?_⟩
  · intro hsome
    simp only [Portmapper.ServiceState.handle_msg,
      Portmapper.ServiceState.update_local_port]
    rw [if_neg (by simp)]
    cases hce : s.current_external with
    | none => rw [hce] at hsome; cases hsome
    | some ext => simp [hce]
  · intro hnone
    simp only [Portmapper.ServiceState.handle_msg,
      Portmapper.ServiceState.update_local_port]
    rw [if_neg (by simp)]
    simp [hnone]
  · intro hlp
    simp only [Portmapper.ServiceState.handle_msg,
      Portmapper.ServiceState.update_local_port]
    rw [if_neg (by simp)]
    cases hce : s.current_external <;>
      simp [hce, Portmapper.ServiceState.get_mapping, hlp]

/-- Witness for C8 at a concrete state: with an installed mapping the
handler is a no-op. -/
theorem procure_mapping_noop_when_mapped :
    Portmapper.ServiceState.handle_msg Portmapper.service_state_mapped
        Portmapper.service_env_ok .procureMapping
      = Portmapper.service_state_mapped :=
  (procure_mapping_equals_update_with_current_port
    Portmapper.service_state_mapped Portmapper.service_env_ok).2.1 rfl

/-- Helper: a successful `upnp::Mapping::new` run never yields external
port 0, provided the preferred port (a `NonZeroU16` in Rust) is non-zero. -/
lemma upnp_new_ok_external_port_ne_zero
    (la : Ipv4Addr) (port : Nat) (g : Option Upnp.Gateway)
    (pref : Option Nat) (env : Upnp.Env) (m : Upnp.Mapping)
    (hpref : ∀ p, pref = some p → p ≠ 0)
    (hm : (Upnp.Mapping.new la port g pref env).1 = .ok m) :
    m.external_port ≠ 0 := by
  obtain ⟨search, eip, apo, aap⟩ := env
  unfold Upnp.Mapping.new at hm
  rcases g with _ | g0 <;> rcases search with _ | _ | g1 <;>
    rcases eip with u | ip <;> try rcases ip with ip4 | ip6
  all_goals rcases pref with _ | pp <;> rcases apo <;> rcases aap with u2 | p
  all_goals try dsimp only at hm
  all_goals try (injection hm with h; subst h; exact fun hz => hpref _ rfl hz)
  all_goals try simp at hm
  all_goals split at hm
  all_goals simp at hm
  all_goals subst hm
  all_goals simp_all

/-- Helper: when `GetExternalIPAddress` reports an IPv6 address (or the
gateway search fails beforehand), `upnp::Mapping::new` returns an error. -/
lemma upnp_new_v6_external_ip_errors
    (la : Ipv4Addr) (port : Nat) (g : Option Upnp.Gateway)
    (pref : Option Nat) (env : Upnp.Env) (i6 : Ipv6Addr)
    (hip : env.external_ip = .ok (.v6 i6)) :
    ∃ e, (Upnp.Mapping.new la port g pref env).1 = .error e := by
  obtain ⟨search, eip, apo, aap⟩ := env
  simp only at hip
  subst hip
  unfold Upnp.Mapping.new
  rcases g with _ | g0 <;> rcases search with _ | _ | g1 <;> exact ⟨_, rfl⟩

/-- C9: confirmed.  Every mapping constructed by the three clients has a
non-zero external port and an IPv4 external address (the address fields
are `Ipv4Addr`-typed, as in the Rust structs): a PCP response whose
external address is not IPv4-mapped or whose external port is 0 is
rejected, NAT-PMP and UPnP reject a zero external port, and a UPnP gateway
reporting an IPv6 external address is rejected. -/
theorem mapping_construction_invariants :
    ∀ (local_ip gateway : Ipv4Addr) (local_port : Nat) (nonce : List Nat)
      (rp : Pcp.Response) (r1 r2 : NatPmp.Response) (la : Ipv4Addr)
      (port : Nat) (g : Option Upnp.Gateway) (pref : Option Nat)
      (env : Upnp.Env),
      (∀ m, Pcp.Mapping.new local_ip local_port gateway nonce rp = .ok m →
        m.external_port ≠ 0 ∧ (IpAddr.v4 m.external_address).is_ipv4 = true)
      ∧ (∀ md, rp.data = .mapData md →
          md.external_address.to_ipv4_mapped = none →
          ∃ e, Pcp.Mapping.new local_ip local_port gateway nonce rp
            = .error e)
      ∧ (∀ md, rp.data = .mapData md → md.external_port = 0 →
          ∃ e, Pcp.Mapping.new local_ip local_port gateway nonce rp
            = .error e)
      ∧ (∀ m, NatPmp.Mapping.new local_ip local_port gateway r1 r2 = .ok m →
          m.external_port ≠ 0 ∧ (IpAddr.v4 m.external_addr).is_ipv4 = true)
      ∧ (∀ m, (∀ p, pref = some p → p ≠ 0) →
          (Upnp.Mapping.new la port g pref env).1 = .ok m →
          m.external_port ≠ 0 ∧ (IpAddr.v4 m.external_ip).is_ipv4 = true)
      ∧ (∀ i6, env.external_ip = .ok (.v6 i6) →
          ∃ e, (Upnp.Mapping.new la port g pref env).1 = .error e) := by
  intro local_ip gateway local_port nonce rp r1 r2 la port g pref env
  obtain ⟨ls0, et0, data⟩ := rp
  refine ⟨?_, ?_, ?_, ?_, ?_, ?_⟩
  · intro m hm
    cases data with
    | announce => simp [Pcp.Mapping.new] at hm
    | mapData md =>
      simp only [Pcp.Mapping.new] at hm
      split_ifs at hm with h1 h2 h3 h4
      cases h5 : md.external_address.to_ipv4_mapped with
      | none => rw [h5] at hm; cases hm
      | some v4 =>
        rw [h5] at hm
        obtain rfl : _ = m := by injection hm
        refine ⟨?_, rfl⟩
        intro hzero
        simp only at hzero
        simp [hzero] at h4
  · rintro md rfl hv6
    simp only [Pcp.Mapping.new]
    split_ifs <;> try exact ⟨_, rfl⟩
    rw [hv6]
    exact ⟨_, rfl⟩
  · rintro md rfl hz
    simp only [Pcp.Mapping.new]
    split_ifs with h1 h2 h3 h4 <;> try exact ⟨_, rfl⟩
    simp [hz] at h4
  · intro m hm
    cases r1 with
    | publicAddress et ip => simp [NatPmp.Mapping.new] at hm
    | portMap proto et pp ep ls =>
      by_cases h : (proto == NatPmp.MapProtocol.udp && pp == local_port) = true
      · simp only [NatPmp.Mapping.new, h, if_true] at hm
        by_cases hz : (ep == 0) = true
        · simp [hz] at hm
        · cases r2 with
          | portMap p2 e2 pp2 ep2 ls2 => simp [hz] at hm
          | publicAddress e2 ip2 =>
            simp only [hz, Bool.false_eq_true, if_false] at hm
            obtain rfl :
                NatPmp.Mapping.mk local_ip local_port gateway ep ip2 ls = m := by
              injection hm
            refine ⟨?_, rfl⟩
            intro hzero
            subst hzero
            simp at hz
      · simp [NatPmp.Mapping.new, h] at hm
  · intro m hpref hm
    exact ⟨upnp_new_ok_external_port_ne_zero la port g pref env m hpref hm, rfl⟩
  · intro i6 hip
    exact upnp_new_v6_external_ip_errors la port g pref env i6 hip

/-- Witness for C9 at concrete inputs: a valid PCP map response yields a
mapping whose external port 55555 is non-zero and whose address is IPv4. -/
theorem mapping_construction_invariants_witness :
    ∃ m, Pcp.Mapping.new ⟨192, 168, 1, 10⟩ 41641 ⟨192, 168, 1, 1⟩ [0, 1, 2]
        ⟨3600, 7, .mapData ⟨[0, 1, 2], 17, 41641, 55555,
          ⟨0, 0, 0, 0, 0, 0xffff, 0xcb00, 0x7107⟩⟩⟩ = .ok m
      ∧ m.external_port ≠ 0 ∧ (IpAddr.v4 m.external_address).is_ipv4 = true :=
  ⟨_, rfl,
    (mapping_construction_invariants ⟨192, 168, 1, 10⟩ ⟨192, 168, 1, 1⟩ 41641
      [0, 1, 2] ⟨3600, 7, .mapData ⟨[0, 1, 2], 17, 41641, 55555,
        ⟨0, 0, 0, 0, 0, 0xffff, 0xcb00, 0x7107⟩⟩⟩
      (.publicAddress 0 ⟨20, 0, 0, 1⟩) (.publicAddress 0 ⟨20, 0, 0, 1⟩)
      ⟨192, 168, 1, 10⟩ 41641 none none
      ⟨.timeout, .error (), false, .error ()⟩).1 _ rfl⟩

/-- C10: confirmed.  `ip_and_gateway` returns `NoGateway` exactly when no
home router was found; with an IPv6 gateway it returns `Ipv6Gateway`; with
an IPv4 gateway it always succeeds, and whenever the machine address is
unknown, IPv6, unspecified, loopback or multicast it substitutes
`127.0.0.1` as the local address. -/
theorem ip_and_gateway_behaviour :
    (Portmapper.ip_and_gateway none = .error .noGateway)
    ∧ (∀ (i6 : Ipv6Addr) (mi : Option IpAddr),
        Portmapper.ip_and_gateway (some ⟨.v6 i6, mi⟩) = .error .ipv6Gateway)
    ∧ (∀ (g4 : Ipv4Addr) (mi : Option IpAddr),
        ∃ lip, Portmapper.ip_and_gateway (some ⟨.v4 g4, mi⟩) = .ok (lip, g4))
    ∧ (∀ (g4 : Ipv4Addr) (mi : Option IpAddr),
        (∀ ip, mi = some (.v4 ip) →
          (!ip.is_unspecified && !ip.is_loopback && !ip.is_multicast)
            = false) →
        Portmapper.ip_and_gateway (some ⟨.v4 g4, mi⟩)
          = .ok (Ipv4Addr.localhost, g4)) := by
  refine ⟨rfl, fun i6 mi => rfl, ?_, ?_⟩
  · intro g4 mi
    exact ⟨_, rfl⟩
  · intro g4 mi h
    rcases mi with _ | ip
    · rfl
    · rcases ip with ip4 | ip6
      · simp [Portmapper.ip_and_gateway, h ip4 rfl]
      · rfl

/-- Witness for C10 at a concrete input: with the machine address reported
as the loopback `127.0.0.1` the local address falls back to `127.0.0.1`
and the call still succeeds. -/
theorem ip_and_gateway_behaviour_witness :
    Portmapper.ip_and_gateway
        (some ⟨.v4 ⟨192, 168, 0, 1⟩, some (.v4 ⟨127, 0, 0, 1⟩)⟩)
      = .ok (Ipv4Addr.localhost, ⟨192, 168, 0, 1⟩) :=
  ip_and_gateway_behaviour.2.2.2 ⟨192, 168, 0, 1⟩
    (some (.v4 ⟨127, 0, 0, 1⟩))
    (by rintro ip hip; cases hip; decide)

/-- C4 counterexample: starting from a state with no interfaces, a new
state in which the interesting interface `wifi0` appeared (all aggregate
flags unchanged) is not reported as a major change by the code, although
the claim says an interface appearing in the new state makes the change
major: `is_major_change` only walks the old state's interfaces. -/
theorem is_major_change_misses_appeared_interface :
    Interfaces.State.is_major_change Interfaces.state_wifi0_appeared
        Interfaces.state_no_ifaces = false
    ∧ Interfaces.major_change_claim Interfaces.state_wifi0_appeared
        Interfaces.state_no_ifaces = true := by
  decide

/-- C4 amended: `new.is_major_change(old)` returns true iff `have_v4`,
`have_v6`, `is_expensive` or `default_route_interface` changed, or some
interesting interface of the old state is missing from the new state,
differs in index, name, flags or MAC, or fails the prefix comparison
(loopback, link-local and multicast prefixes ignored, remaining prefixes
compared pointwise under zip); interfaces present only in the new state
are not considered. -/
theorem is_major_change_characterisation :
    ∀ (s old : Interfaces.State),
      Interfaces.State.is_major_change s old = true
        ↔ Interfaces.major_change_amended s old := by
  intro s old
  unfold Interfaces.State.is_major_change Interfaces.major_change_amended
  split
  · rename_i hcond
    simp only [Bool.or_eq_true, bne_iff_ne] at hcond
    constructor
    · intro _
      tauto
    · intro _
      rfl
  · rename_i hcond
    rw [Bool.not_eq_true] at hcond
    simp only [Bool.or_eq_false_iff] at hcond
    obtain ⟨⟨⟨h6, h4⟩, hx⟩, hd⟩ := hcond
    rw [bne_eq_false_iff_eq] at h6 h4 hx hd
    rw [List.any_eq_true]
    constructor
    · rintro ⟨x, hxmem, hxval⟩
      rw [Bool.and_eq_true] at hxval
      obtain ⟨hint, hrest⟩ := hxval
      refine Or.inr (Or.inr (Or.inr (Or.inr ⟨x, hxmem, hint, ?_⟩)))
      rcases hlk : s.interfaces.lookup x.1 with _ | i2
      · exact Or.inl rfl
      · rw [hlk] at hrest
        refine Or.inr ⟨i2, rfl, ?_⟩
        simpa only [Bool.or_eq_true, Bool.not_eq_true'] using hrest
    · rintro (h | h | h | h | ⟨x, hxmem, hint, hcase⟩)
      · exact absurd h6 h
      · exact absurd h4 h
      · exact absurd hx h
      · exact absurd hd h
      · refine ⟨x, hxmem, ?_⟩
        rw [Bool.and_eq_true]
        refine ⟨hint, ?_⟩
        rcases hcase with hnone | ⟨i2, hlk, hdiff⟩
        · rw [hnone]
        · rw [hlk]
          simpa only [Bool.or_eq_true, Bool.not_eq_true'] using hdiff

end NetTools
